import Mathlib

/-!
Shallow embedding of the taskschedule scheduling/execution core
(`tasks/models.py`, `tasks/tasks.py`, `tasks/forms.py`).

Timestamps are modelled as `Int` epoch seconds; `timedelta(seconds=k)`
addition is integer addition.  Django `None` values are `Option.none`.
Python exception control flow is modelled with `Except`, the raising
value being the caught exception.
-/

set_option autoImplicit false

namespace TaskSchedule

/-- Embedding of `TaskDefinition.SCHEDULE_TYPES` from `models.py`. -/
inductive ScheduleType where
  | once
  | interval
  | cron
  deriving DecidableEq, Repr

/-- Embedding of `TaskDefinition.STATUS_CHOICES` from `models.py`. -/
inductive TaskStatus where
  | draft
  | active
  | paused
  | inactive
  deriving DecidableEq, Repr

/-- Embedding of `TaskExecution.STATUS_CHOICES` from `models.py`. -/
inductive ExecStatus where
  | pending
  | running
  | success
  | failure
  | timeout
  | cancelled
  deriving DecidableEq, Repr

/-- Python whitespace characters (ASCII subset) as recognised by
`str.strip()` / `str.split()` and by `int(str)`. -/
def isPyWs (c : Char) : Bool :=
  c = ' ' || c = '\t' || c = '\n' || c = '\r' || c = Char.ofNat 11 || c = Char.ofNat 12

/-- Strip leading and trailing whitespace, as Python `int(str)` does before
parsing. -/
def pyStrip (cs : List Char) : List Char :=
  ((cs.dropWhile isPyWs).reverse.dropWhile isPyWs).reverse

/-- Digit-run parser for Python `int(str)`: after a first digit, further
digits may be separated by single underscores (no trailing or doubled
underscore). -/
def pyDigitsCore : List Char → Nat → Option Nat
  | [], acc => some acc
  | ['_'], _ => none
  | '_' :: c :: rest, acc =>
    if c.isDigit then pyDigitsCore rest (acc * 10 + (c.toNat - 48)) else none
  | c :: rest, acc =>
    if c.isDigit then pyDigitsCore rest (acc * 10 + (c.toNat - 48)) else none

/-- A non-empty digit string (underscores allowed between digits), as
accepted by Python `int(str)` after sign handling. -/
def pyParseNatDigits : List Char → Option Nat
  | [] => none
  | c :: rest => if c.isDigit then pyDigitsCore rest (c.toNat - 48) else none

/-- Python `int(str)`: strips whitespace, accepts an optional sign followed
by decimal digits; returns `none` where CPython raises `ValueError`. -/
def pyParseInt (s : String) : Option Int :=
  match pyStrip s.toList with
  | '-' :: rest => (pyParseNatDigits rest).map (fun n => -(n : Int))
  | '+' :: rest => (pyParseNatDigits rest).map (fun n => (n : Int))
  | cs => (pyParseNatDigits cs).map (fun n => (n : Int))

/-- Embedding of `calculate_next_run_time` from `tasks/tasks.py` (lines 153–184), with the
task's relevant fields and the `timezone.now()` reading passed explicitly.
`once` returns `None`; `interval` adds `int(schedule_value)` seconds,
returning `None` when the conversion raises; `cron` is the source's stub
that returns `now + timedelta(hours=1)` regardless of the expression. -/
def calculate_next_run_time (schedule_type : ScheduleType) (schedule_value : String)
    (now : Int) : Option Int :=
  match schedule_type with
  | .once => none
  | .interval =>
    match pyParseInt schedule_value with
    | some k => some (now + k)
    | none => none
  | .cron => some (now + 3600)

/-- The statistics and bookkeeping fields of `TaskDefinition` that
`TaskExecution.mark_completed` mutates (`models.py` lines 90–92, 86). -/
structure TaskStats where
  total_runs : Nat
  successful_runs : Nat
  failed_runs : Nat
  last_run_at : Option Int
  deriving DecidableEq, Repr

/-- A fresh `TaskDefinition`'s statistics: all counters default to 0 and
`last_run_at` to `None`. -/
def initStats : TaskStats :=
  { total_runs := 0, successful_runs := 0, failed_runs := 0, last_run_at := none }

/-- The mutable fields of a `TaskExecution` row touched by `mark_started`
and `mark_completed` (`models.py` lines 149–164). -/
structure ExecRecord where
  status : ExecStatus
  started_at : Option Int
  completed_at : Option Int
  output : String
  error_output : String
  exit_code : Option Int
  execution_time_seconds : Option Int
  deriving DecidableEq, Repr

/-- A freshly created `TaskExecution` (`pending`, everything else empty). -/
def initExecRecord : ExecRecord :=
  { status := .pending, started_at := none, completed_at := none,
    output := "", error_output := "", exit_code := none,
    execution_time_seconds := none }

/-- The fields of `TaskDefinition` consumed by the script runner.
`script_file` is `none` when no file is attached; `some (.error ())` when a
file is attached but opening/reading it raises `FileNotFoundError`/`IOError`;
`some (.ok content)` when the file is readable. -/
structure TaskRec where
  script_file : Option (Except Unit String)
  script_content : String
  timeout_seconds : Nat
  stats : TaskStats
  deriving Repr

/-- Embedding of `TaskDefinition.get_script_content` (`models.py` lines 112–120): try the
uploaded file first, swallowing read errors, then fall back to the inline
text (`self.script_content or ""`, which is the identity on the non-null
`TextField`). -/
def get_script_content (task : TaskRec) : String :=
  match task.script_file with
  | some (Except.ok content) => content
  | some (Except.error _) => task.script_content
  | none => task.script_content

/-- Embedding of `TaskExecution.mark_started` (`models.py` lines 185–189). -/
def mark_started (ex : ExecRecord) (t : Int) : ExecRecord :=
  { ex with status := .running, started_at := some t }

/-- Embedding of `TaskExecution.mark_completed` (`models.py` lines 191–218): writes the
terminal fields on the execution and then updates the owning task's
statistics.  Returns the updated execution row and task statistics. -/
def mark_completed (ex : ExecRecord) (stats : TaskStats) (status : ExecStatus)
    (output : String) (error_output : String) (exit_code : Option Int)
    (tNow : Int) : ExecRecord × TaskStats :=
  let ex1 : ExecRecord :=
    { ex with
      status := status
      completed_at := some tNow
      output := output
      error_output := error_output
      exit_code := exit_code
      execution_time_seconds :=
        match ex.started_at with
        | some s => some (tNow - s)
        | none => ex.execution_time_seconds }
  let stats1 : TaskStats :=
    { total_runs := stats.total_runs + 1
      successful_runs :=
        if status = ExecStatus.success then stats.successful_runs + 1
        else stats.successful_runs
      failed_runs :=
        if status = ExecStatus.success then stats.failed_runs
        else stats.failed_runs + 1
      last_run_at := some tNow }
  (ex1, stats1)

/-- The counter invariant of §3 of the design: every run is counted exactly
once, as a success or as a failure. -/
def statsInv (st : TaskStats) : Prop :=
  st.total_runs = st.successful_runs + st.failed_runs

/-- One completed execution folded into the task statistics: each completion
is a fresh `TaskExecution` whose `mark_completed` carries a terminal status
and a completion time. -/
def applyCompletion (stats : TaskStats) (ev : ExecStatus × Int) : TaskStats :=
  (mark_completed initExecRecord stats ev.1 "" "" none ev.2).2

/-- Outcome of the `subprocess.run` call in `execute_python_script`
(`tasks.py` lines 53–60): the child exits with a code and captured streams,
the wall-clock limit fires (`subprocess.TimeoutExpired`), or launching or
running raises some other exception whose text is `m`. -/
inductive RunOutcome where
  | completed (exitCode : Int) (stdout : String) (stderr : String)
  | timedOut
  | raised (m : String)
  deriving DecidableEq, Repr

/-- Events that escape the body of `execute_python_script`'s outer `try`
(`tasks.py` lines 23–110) and are caught at lines 111–120. -/
inductive PyExc where
  | doesNotExist
  | valueError (msg : String)
  deriving DecidableEq, Repr

/-- The dictionary returned by `execute_python_script`.  `none` models an
absent key (the timeout/failure dictionaries omit `output`, `exit_code` and
`execution_time_seconds`). -/
structure ResultDict where
  status : String
  output : Option String
  error_output : Option String
  exit_code : Option Int
  execution_time_seconds : Option Int
  deriving DecidableEq, Repr

/-- Body of `execute_python_script`'s outer `try` (`tasks.py` lines 23–110).
`lookup` is the result of `TaskExecution.objects.get` (`none` models
`DoesNotExist`); `outcome` is what the subprocess call does; `startT` and
`finT` are the `timezone.now()` readings taken by `mark_started` and
`mark_completed`.  Raising propagates as `Except.error`, paired with the
database state already persisted at the raise point (the execution is left
`running` when the missing-script `ValueError` fires after `mark_started`).
The inner `try`'s `except` clauses (timeout, generic launch failure) are
handled here, as in the source, and do not escape. -/
def execute_python_script_try (lookup : Option (ExecRecord × TaskRec))
    (outcome : RunOutcome) (startT finT : Int) :
    Except (PyExc × Option (ExecRecord × TaskStats))
      (Option (ExecRecord × TaskStats) × ResultDict) :=
  match lookup with
  | none => .error (.doesNotExist, none)
  | some (ex, task) =>
    let ex1 := mark_started ex startT
    let script := get_script_content task
    if script = "" then
      .error (.valueError "No script content found", some (ex1, task.stats))
    else
      match outcome with
      | .completed code out err =>
        let status := if code = 0 then ExecStatus.success else ExecStatus.failure
        let r := mark_completed ex1 task.stats status out err (some code) finT
        .ok (some r,
          { status := if code = 0 then "success" else "failure"
            output := some out
            error_output := some err
            exit_code := some code
            execution_time_seconds := r.1.execution_time_seconds })
      | .timedOut =>
        let msg :=
          "Script execution timed out after " ++ toString task.timeout_seconds
            ++ " seconds"
        let r := mark_completed ex1 task.stats .timeout "" msg none finT
        .ok (some r,
          { status := "timeout", output := none, error_output := some msg,
            exit_code := none, execution_time_seconds := none })
      | .raised m =>
        let msg := "Execution error: " ++ m
        let r := mark_completed ex1 task.stats .failure "" msg none finT
        .ok (some r,
          { status := "failure", output := none, error_output := some msg,
            exit_code := none, execution_time_seconds := none })

/-- Embedding of `execute_python_script` (`tasks.py` lines 12–120): the outer `try`'s
`except TaskExecution.DoesNotExist` and `except Exception` handlers turn
every escaped exception into a failure dictionary, so the task itself never
raises to Celery.  Returns the final persisted `(execution, task statistics)`
state (if a row was looked up) together with the returned dictionary. -/
def execute_python_script (execution_id : String)
    (lookup : Option (ExecRecord × TaskRec)) (outcome : RunOutcome)
    (startT finT : Int) : Option (ExecRecord × TaskStats) × ResultDict :=
  match execute_python_script_try lookup outcome startT finT with
  | .ok r => r
  | .error (.doesNotExist, st) =>
    (st,
      { status := "failure", output := none,
        error_output :=
          some ("TaskExecution with id " ++ execution_id ++ " not found"),
        exit_code := none, execution_time_seconds := none })
  | .error (.valueError m, st) =>
    (st,
      { status := "failure", output := none,
        error_output := some ("Unexpected error: " ++ m),
        exit_code := none, execution_time_seconds := none })

/-- The fields of `TaskDefinition` read and written by
`schedule_periodic_tasks` (`tasks.py` lines 123–150). -/
structure TaskDefinitionRec where
  id : Nat
  status : TaskStatus
  schedule_type : ScheduleType
  schedule_value : String
  next_run_at : Option Int
  deriving DecidableEq, Repr

/-- The dispatcher's due filter (`tasks.py` lines 134–137):
`status='active', next_run_at__lte=now`.  A SQL `<=` against `NULL` is not
satisfied, so a task with `next_run_at IS NULL` is never selected. -/
def isDue (t : TaskDefinitionRec) (now : Int) : Bool :=
  t.status = TaskStatus.active &&
    match t.next_run_at with
    | some r => decide (r ≤ now)
    | none => false

/-- Observable effects of one dispatch cycle: the `TaskExecution` rows
created (by owning task id, in creation order), the executions successfully
handed to `execute_python_script.delay` (by owning task id), and the task
table after the cycle's `next_run_at` updates. -/
structure CycleState where
  executions_created : List Nat
  submitted : List Nat
  tasks : List TaskDefinitionRec
  deriving DecidableEq, Repr

/-- Persist `task.next_run_at = nrt` for the task with id `tid`
(`tasks.py` lines 149–150). -/
def update_task_next_run (tasks : List TaskDefinitionRec) (tid : Nat)
    (nrt : Option Int) : List TaskDefinitionRec :=
  tasks.map (fun u => if u.id = tid then { u with next_run_at := nrt } else u)

/-- One iteration of the dispatcher's `for task in due_tasks` loop
(`tasks.py` lines 139–150): create the execution row, enqueue it
(`delayFails t.id = true` models `.delay` raising, e.g. the broker being
unavailable — the source wraps nothing in `try`, so the exception propagates,
carrying the effects applied so far), then recompute and persist
`next_run_at`. -/
def dispatchOne (now : Int) (delayFails : Nat → Bool) (st : CycleState)
    (t : TaskDefinitionRec) : Except CycleState CycleState :=
  let st1 : CycleState :=
    { st with executions_created := st.executions_created ++ [t.id] }
  if delayFails t.id then
    .error st1
  else
    let nrt := calculate_next_run_time t.schedule_type t.schedule_value now
    .ok { st1 with
      submitted := st1.submitted ++ [t.id]
      tasks := update_task_next_run st1.tasks t.id nrt }

/-- The dispatcher's loop over the due tasks, propagating a raised
exception. -/
def dispatchLoop (now : Int) (delayFails : Nat → Bool) :
    List TaskDefinitionRec → CycleState → Except CycleState CycleState
  | [], st => .ok st
  | t :: rest, st =>
    match dispatchOne now delayFails st t with
    | .error e => .error e
    | .ok st1 => dispatchLoop now delayFails rest st1

/-- Embedding of `schedule_periodic_tasks` (`tasks.py` lines 123–150): select the due
active tasks, then dispatch each in order.  The source re-reads
`timezone.now()` inside `calculate_next_run_time` for each task; the model
uses the single cycle reading `now`, which is immaterial to the properties
proved here.  An `Except.error` result models the Celery beat task raising
out of the loop, with the effects already persisted at that point. -/
def schedule_periodic_tasks (tasks : List TaskDefinitionRec) (now : Int)
    (delayFails : Nat → Bool) : Except CycleState CycleState :=
  dispatchLoop now delayFails (tasks.filter (fun t => isDue t now))
    { executions_created := [], submitted := [], tasks := tasks }

/-- Python `str.split()` with no argument: split on runs of whitespace,
discarding empty pieces. -/
def pySplitWsAux : List Char → List Char → List String
  | [], acc => if acc.isEmpty then [] else [String.mk acc.reverse]
  | c :: rest, acc =>
    if isPyWs c then
      if acc.isEmpty then pySplitWsAux rest []
      else String.mk acc.reverse :: pySplitWsAux rest []
    else pySplitWsAux rest (c :: acc)

/-- Embedding of `cron_expr.strip().split()` from `forms.py` line 103 (`split()` already
ignores outer whitespace, so the `strip()` is absorbed). -/
def pySplitWs (s : String) : List String :=
  pySplitWsAux s.toList []

/-- Embedding of `',' in part or '-' in part or '/' in part` (`forms.py` line 118). -/
def hasCronSpecial (p : String) : Bool :=
  p.toList.contains ',' || p.toList.contains '-' || p.toList.contains '/'

/-- Full match of the minute pattern `^(\*|[0-5]?\d)$` (`forms.py`
line 109) on a whitespace-free field. -/
def matchMinutePat (p : String) : Bool :=
  match p.toList with
  | ['*'] => true
  | [d] => d.isDigit
  | [a, b] => (48 ≤ a.toNat && a.toNat ≤ 53) && b.isDigit
  | _ => false

/-- Full match of the hour pattern `^(\*|[01]?\d|2[0-3])$` (`forms.py`
line 110). -/
def matchHourPat (p : String) : Bool :=
  match p.toList with
  | ['*'] => true
  | [d] => d.isDigit
  | [a, b] =>
    ((a = '0' || a = '1') && b.isDigit) ||
      (a = '2' && (48 ≤ b.toNat && b.toNat ≤ 51))
  | _ => false

/-- Full match of the day-of-month pattern `^(\*|[12]?\d|3[01])$`
(`forms.py` line 111). -/
def matchDomPat (p : String) : Bool :=
  match p.toList with
  | ['*'] => true
  | [d] => d.isDigit
  | [a, b] =>
    ((a = '1' || a = '2') && b.isDigit) || (a = '3' && (b = '0' || b = '1'))
  | _ => false

/-- Full match of the month pattern `^(\*|[01]?\d)$` (`forms.py` line 112).
Note the pattern accepts any one digit and any `0`/`1`-prefixed two-digit
string, i.e. the integers 0–19, not only 1–12. -/
def matchMonthPat (p : String) : Bool :=
  match p.toList with
  | ['*'] => true
  | [d] => d.isDigit
  | [a, b] => (a = '0' || a = '1') && b.isDigit
  | _ => false

/-- Full match of the day-of-week pattern `^(\*|[0-6])$` (`forms.py`
line 113). -/
def matchDowPat (p : String) : Bool :=
  match p.toList with
  | ['*'] => true
  | [d] => 48 ≤ d.toNat && d.toNat ≤ 54
  | _ => false

/-- The per-part loop of `_validate_cron_expression` (`forms.py` lines
104–123): exactly five parts; a part containing `,`, `-` or `/` is accepted
outright (`continue`), otherwise it must match its field's pattern. -/
def cronPartsOk : List String → Bool
  | [a, b, c, d, e] =>
    (hasCronSpecial a || matchMinutePat a) &&
      (hasCronSpecial b || matchHourPat b) &&
      (hasCronSpecial c || matchDomPat c) &&
      (hasCronSpecial d || matchMonthPat d) &&
      (hasCronSpecial e || matchDowPat e)
  | _ => false

/-- Embedding of `TaskSubmissionForm._validate_cron_expression` (`forms.py` lines
101–123). -/
def validate_cron_expression (cron_expr : String) : Bool :=
  cronPartsOk (pySplitWs cron_expr)

/-- The claim's characterisation of the validator, stated declaratively:
the expression splits into exactly five whitespace-separated fields, and
each field either contains `,`, `-` or `/` or matches its per-field
pattern. -/
def cronSpecAccepts (cron_expr : String) : Prop :=
  ∃ a b c d e, pySplitWs cron_expr = [a, b, c, d, e] ∧
    (hasCronSpecial a = true ∨ matchMinutePat a = true) ∧
    (hasCronSpecial b = true ∨ matchHourPat b = true) ∧
    (hasCronSpecial c = true ∨ matchDomPat c = true) ∧
    (hasCronSpecial d = true ∨ matchMonthPat d = true) ∧
    (hasCronSpecial e = true ∨ matchDowPat e = true)

/-- Round-half-to-even on a rational, the rounding mode of Python's
built-in `round` (float representation error aside, which the rational
model abstracts). -/
def roundHalfEven (q : Rat) : Int :=
  let f := q.floor
  let r := q - (f : Rat)
  if r < 1 / 2 then f
  else if 1 / 2 < r then f + 1
  else if f % 2 = 0 then f else f + 1

/-- Python `round(x, 1)` on the rational model. -/
def pyRound1 (x : Rat) : Rat :=
  ((roundHalfEven (10 * x) : Int) : Rat) / 10

/-- Embedding of `TaskDefinition.success_rate` (`models.py` lines 105–110):
`0` when `total_runs == 0`, else
`round((successful_runs / total_runs) * 100, 1)`. -/
def success_rate (successful_runs total_runs : Nat) : Rat :=
  if total_runs = 0 then 0
  else pyRound1 (((successful_runs : Rat) / (total_runs : Rat)) * 100)

/-- Minute-of-hour of an epoch-seconds timestamp. -/
def minuteOfEpoch (t : Int) : Int :=
  (t / 60) % 60

/-- The minute-field constraint of a cron expression, restricted to the
literal and `*` forms (all that is needed to exhibit the stub's
divergence): `*` matches everything, a literal `m` requires the timestamp's
minute to equal `m`. -/
def cronMinuteFieldOk (field : String) (t : Int) : Prop :=
  field = "*" ∨
    ∃ n : Nat, pyParseNatDigits field.toList = some n ∧ minuteOfEpoch t = (n : Int)

/-- A due active interval task with id 1 (for concrete dispatch cycles). -/
def cexTaskA : TaskDefinitionRec :=
  { id := 1, status := .active, schedule_type := .interval,
    schedule_value := "60", next_run_at := some 0 }

/-- A due active interval task with id 2. -/
def cexTaskB : TaskDefinitionRec :=
  { id := 2, status := .active, schedule_type := .interval,
    schedule_value := "60", next_run_at := some 0 }

/-- A due active interval task with id 3. -/
def cexTaskC : TaskDefinitionRec :=
  { id := 3, status := .active, schedule_type := .interval,
    schedule_value := "60", next_run_at := some 0 }

/-- An enqueue oracle under which `.delay` raises exactly for task id 1. -/
def failTaskOne (i : Nat) : Bool := i == 1

/-- An enqueue oracle under which `.delay` raises exactly for task id 2. -/
def failTaskTwo (i : Nat) : Bool := i == 2

/-- The cycle state left behind when dispatching `[cexTaskA, cexTaskB]` at
`now = 10` and the enqueue of task 1 raises: an execution row was created
for task 1, nothing was submitted, and no `next_run_at` was advanced. -/
def cexAbortState : CycleState :=
  { executions_created := [1], submitted := [], tasks := [cexTaskA, cexTaskB] }

/-! ## Helper lemmas -/

theorem string_append_ne_empty (a b : String) (ha : a ≠ "") : a ++ b ≠ "" := by
  intro h
  apply ha
  have hd : (a ++ b).data = [] := by rw [h]
  rw [String.data_append] at hd
  rcases List.append_eq_nil.mp hd with ⟨h1, _⟩
  cases a
  simp_all

theorem statsInv_applyCompletion (st : TaskStats) (ev : ExecStatus × Int)
    (h : statsInv st) : statsInv (applyCompletion st ev) := by
  simp only [statsInv, applyCompletion, mark_completed] at h ⊢
  split <;> omega

theorem statsInv_foldl (evs : List (ExecStatus × Int)) (st : TaskStats)
    (h : statsInv st) : statsInv (evs.foldl applyCompletion st) := by
  induction evs generalizing st with
  | nil => exact h
  | cons ev rest ih => exact ih _ (statsInv_applyCompletion st ev h)

/-! ## Claim theorems -/

/-- C4: every completion of an execution (`mark_completed` with any terminal
status) increments the owning task's `total_runs` by exactly 1, increments
`successful_runs` by 1 iff the status is `success`, and otherwise increments
`failed_runs` by 1 (so `timeout` and `cancelled` count as failed); hence the
invariant `total_runs = successful_runs + failed_runs` holds after any
number of completed executions folded onto a fresh task. -/
theorem mark_completed_statistics (ex : ExecRecord) (stats : TaskStats)
    (status : ExecStatus) (out err : String) (code : Option Int) (t : Int) :
    ((mark_completed ex stats status out err code t).2.total_runs
        = stats.total_runs + 1 ∧
      (mark_completed ex stats status out err code t).2.successful_runs
        = (if status = ExecStatus.success then stats.successful_runs + 1
           else stats.successful_runs) ∧
      (mark_completed ex stats status out err code t).2.failed_runs
        = (if status = ExecStatus.success then stats.failed_runs
           else stats.failed_runs + 1)) ∧
    ∀ evs : List (ExecStatus × Int),
      statsInv (evs.foldl applyCompletion initStats) :=
  ⟨⟨rfl, rfl, rfl⟩, fun evs => statsInv_foldl evs initStats rfl⟩

/-- C8: script-content resolution tries the uploaded file first (a readable
file's content is returned even when inline text exists); a read error is
swallowed and resolution falls back to the inline text; with no readable
file and empty inline text the result is the empty string. -/
theorem get_script_content_resolution (content inline : String) (tout : Nat)
    (st : TaskStats) :
    get_script_content
        { script_file := some (Except.ok content), script_content := inline,
          timeout_seconds := tout, stats := st } = content ∧
    get_script_content
        { script_file := some (Except.error ()), script_content := inline,
          timeout_seconds := tout, stats := st } = inline ∧
    get_script_content
        { script_file := none, script_content := inline,
          timeout_seconds := tout, stats := st } = inline ∧
    get_script_content
        { script_file := some (Except.error ()), script_content := "",
          timeout_seconds := tout, stats := st } = "" ∧
    get_script_content
        { script_file := none, script_content := "",
          timeout_seconds := tout, stats := st } = "" :=
  ⟨rfl, rfl, rfl, rfl, rfl⟩

/-- C10: the success-rate computation returns 0 when `total_runs = 0` and
otherwise `round((successful_runs / total_runs) * 100, 1)`; the zero case is
guarded by the `if`, so the division is never evaluated for a task that has
never run. -/
theorem success_rate_guarded (s t : Nat) :
    (t = 0 → success_rate s t = 0) ∧
    (t ≠ 0 →
      success_rate s t = pyRound1 (((s : Rat) / (t : Rat)) * 100)) := by
  constructor
  · intro h
    simp [success_rate, h]
  · intro h
    simp [success_rate, h]

theorem success_rate_guarded_witness :
    success_rate 5 0 = 0 ∧
    success_rate 1 3 = pyRound1 (((1 : Rat) / (3 : Rat)) * 100) :=
  ⟨(success_rate_guarded 5 0).1 rfl, (success_rate_guarded 1 3).2 (by decide)⟩

/-- C5: the evaluator returns `none` for a `once` schedule at every `now`;
a task whose `next_run_at` is `NULL` never satisfies the dispatcher's due
filter (`status='active', next_run_at__lte=now`), so it is never selected
by a dispatch cycle and a one-off task cannot re-fire. -/
theorem once_never_refires :
    (∀ (v : String) (now : Int),
      calculate_next_run_time ScheduleType.once v now = none) ∧
    (∀ (t : TaskDefinitionRec) (now : Int),
      t.next_run_at = none → isDue t now = false) ∧
    (∀ (tasks : List TaskDefinitionRec) (now : Int) (t : TaskDefinitionRec),
      t ∈ tasks.filter (fun u => isDue u now) → t.next_run_at ≠ none) := by
  refine ⟨fun v now => rfl, ?_, ?_⟩
  · intro t now h
    simp [isDue, h]
  · intro tasks now t ht h
    have h2 := (List.mem_filter.mp ht).2
    simp [isDue, h] at h2

theorem once_never_refires_witness :
    calculate_next_run_time ScheduleType.once "2024-01-01 00:00" 42 = none ∧
    isDue
      { id := 7, status := TaskStatus.active, schedule_type := ScheduleType.once,
        schedule_value := "", next_run_at := none } 42 = false :=
  ⟨once_never_refires.1 "2024-01-01 00:00" 42,
   once_never_refires.2.1
     { id := 7, status := TaskStatus.active, schedule_type := ScheduleType.once,
       schedule_value := "", next_run_at := none } 42 rfl⟩

/-- C3 counterexample: `"0"` parses to the integer 0, which is not a
positive integer, yet the evaluator returns `now + 0` rather than the
claimed `none`; likewise `"-5"` yields `now - 5`.  (Python `int()` accepts
any sign; only genuinely unparseable values raise.) -/
theorem interval_nonpositive_counterexample :
    pyParseInt "0" = some 0 ∧
    calculate_next_run_time ScheduleType.interval "0" 100 = some 100 ∧
    pyParseInt "-5" = some (-5) ∧
    calculate_next_run_time ScheduleType.interval "-5" 100 = some 95 := by
  refine ⟨by decide, by decide, by decide, by decide⟩

/-- C3 amended: for an `interval` schedule the evaluator returns
`now + k` whenever `schedule_value` parses as an integer `k` — including
`k = 0` and negative `k` — and returns `none` exactly when the value does
not parse as an integer at all; for positive `k` the result strictly
advances `now`. -/
theorem interval_next_run_amended (v : String) (now : Int) :
    (∀ k : Int, pyParseInt v = some k →
      calculate_next_run_time ScheduleType.interval v now = some (now + k)) ∧
    (pyParseInt v = none →
      calculate_next_run_time ScheduleType.interval v now = none) ∧
    (∀ k : Int, pyParseInt v = some k → 0 < k → now < now + k) := by
  refine ⟨?_, ?_, ?_⟩
  · intro k h
    simp [calculate_next_run_time, h]
  · intro h
    simp [calculate_next_run_time, h]
  · intro k _ hk
    omega

theorem interval_next_run_amended_witness :
    calculate_next_run_time ScheduleType.interval "60" 1000 = some 1060 ∧
    calculate_next_run_time ScheduleType.interval "every hour" 1000 = none :=
  ⟨(interval_next_run_amended "60" 1000).1 60 (by decide),
   (interval_next_run_amended "every hour" 1000).2.1 (by decide)⟩

/-- C1: the source's cron branch is a stub (`tasks.py` lines 178–182,
`TODO: Implement proper cron parsing`) that returns `now + 3600` for every
expression.  At `now = 600` (epoch seconds, i.e. 00:10:00 UTC) with the
pre-validated expression `"0 0 * * *"` it returns 4200 (01:10:00), whose
minute-of-hour is 10, so the minute field constraint `0` is not satisfied:
the returned timestamp does not satisfy all five field constraints. -/
theorem cron_stub_ignores_fields :
    calculate_next_run_time ScheduleType.cron "0 0 * * *" 600 = some 4200 ∧
    minuteOfEpoch 4200 = 10 ∧
    ¬ cronMinuteFieldOk "0" 4200 := by
  refine ⟨by decide, by decide, ?_⟩
  intro h
  rcases h with h | ⟨n, hn, hm⟩
  · exact absurd h (by decide)
  · have h0 : pyParseNatDigits "0".toList = some 0 := by decide
    rw [h0] at hn
    rw [← Option.some_inj.mp hn] at hm
    exact absurd hm (by decide)

theorem mem_of_mem_update_task_next_run (tasks : List TaskDefinitionRec)
    (tid : Nat) (nrt : Option Int) (u : TaskDefinitionRec)
    (hu : u ∈ update_task_next_run tasks tid nrt) (hne : u.id ≠ tid) :
    u ∈ tasks := by
  rcases List.mem_map.mp hu with ⟨v, hv, he⟩
  by_cases h : v.id = tid
  · rw [if_pos h] at he
    exact absurd (by rw [← he]; exact h) hne
  · rw [if_neg h] at he
    exact he ▸ hv

theorem mem_update_task_next_run_of_ne (tasks : List TaskDefinitionRec)
    (tid : Nat) (nrt : Option Int) (u : TaskDefinitionRec)
    (hu : u ∈ tasks) (hne : u.id ≠ tid) :
    u ∈ update_task_next_run tasks tid nrt := by
  have he : (if u.id = tid then { u with next_run_at := nrt } else u) = u :=
    if_neg hne
  exact he ▸ List.mem_map_of_mem _ hu

theorem dispatchLoop_fail_after_prefix (now : Int) (delayFails : Nat → Bool)
    (f : TaskDefinitionRec) (post : List TaskDefinitionRec)
    (hf : delayFails f.id = true) :
    ∀ (pre : List TaskDefinitionRec) (st : CycleState),
      (∀ t ∈ pre, delayFails t.id = false) →
      ∃ stE : CycleState,
        dispatchLoop now delayFails (pre ++ f :: post) st = Except.error stE ∧
        stE.submitted = st.submitted ++ pre.map (fun t => t.id) ∧
        stE.executions_created
          = st.executions_created ++ pre.map (fun t => t.id) ++ [f.id] ∧
        (∀ u ∈ stE.tasks,
          u.id ∉ pre.map (fun t => t.id) → u ∈ st.tasks) ∧
        (∀ u ∈ st.tasks,
          u.id ∉ pre.map (fun t => t.id) → u ∈ stE.tasks) := by
  intro pre
  induction pre with
  | nil =>
    intro st _
    refine ⟨{ st with
        executions_created := st.executions_created ++ [f.id] }, ?_, by simp,
        by simp, fun u hu _ => hu, fun u hu _ => hu⟩
    simp [dispatchLoop, dispatchOne, hf]
  | cons h tl ih =>
    intro st hpre
    have hh : delayFails h.id = false := hpre h (List.mem_cons_self h tl)
    obtain ⟨stE, he, hsub, hec, hback, hfwd⟩ :=
      ih { executions_created := st.executions_created ++ [h.id]
           submitted := st.submitted ++ [h.id]
           tasks := update_task_next_run st.tasks h.id
             (calculate_next_run_time h.schedule_type h.schedule_value now) }
        (fun t ht => hpre t (List.mem_cons_of_mem h ht))
    refine ⟨stE, ?_, ?_, ?_, ?_, ?_⟩
    · rw [List.cons_append, dispatchLoop]
      simp only [dispatchOne, hh, Bool.false_eq_true, if_false]
      exact he
    · simp only [hsub]
      simp
    · simp only [hec]
      simp
    · intro u hu hid
      have hid1 : u.id ≠ h.id := fun hc => hid (by simp [hc])
      have hid2 : u.id ∉ tl.map (fun t => t.id) := fun hc => hid (by simp [hc])
      exact mem_of_mem_update_task_next_run _ _ _ u (hback u hu hid2) hid1
    · intro u hu hid
      have hid1 : u.id ≠ h.id := fun hc => hid (by simp [hc])
      have hid2 : u.id ∉ tl.map (fun t => t.id) := fun hc => hid (by simp [hc])
      exact hfwd u (mem_update_task_next_run_of_ne _ _ _ u hu hid1) hid2

/-- C2 counterexample: both tasks are due at `now = 10`, the enqueue for
task 1 raises, and because `schedule_periodic_tasks` wraps nothing in
`try`, the cycle aborts with task 2 neither given an execution row nor
submitted — refuting "every other due task in the same cycle is still
dispatched".  (The unadvanced `next_run_at` of the failing task is visible
in the aborted state: the task table is untouched.) -/
theorem dispatch_failure_aborts_batch_cex :
    schedule_periodic_tasks [cexTaskA, cexTaskB] 10 failTaskOne
      = Except.error cexAbortState ∧
    isDue cexTaskB 10 = true ∧
    cexTaskB.id ∉ cexAbortState.executions_created ∧
    cexTaskB.id ∉ cexAbortState.submitted ∧
    cexAbortState.tasks = [cexTaskA, cexTaskB] := by
  refine ⟨rfl, by decide, by decide, by decide, rfl⟩

/-- C2 amended: a submission failure aborts the remainder of the batch.
If the due tasks split as `pre ++ f :: post` where every enqueue in `pre`
succeeds and `f`'s enqueue raises, the cycle raises out of the loop having
submitted exactly the tasks of `pre`; an execution row exists for `f` but
`f` was not submitted, and every task whose id is not among `pre`'s ids —
in particular `f` and all of `post` — keeps its original record, i.e. its
`next_run_at` is not advanced (`next_run_at` is only advanced after a
successful submission), so those tasks are picked up again on a later
cycle. -/
theorem dispatch_failure_aborts_batch_amended
    (tasks : List TaskDefinitionRec) (now : Int) (delayFails : Nat → Bool)
    (pre : List TaskDefinitionRec) (f : TaskDefinitionRec)
    (post : List TaskDefinitionRec)
    (hdue : tasks.filter (fun t => isDue t now) = pre ++ f :: post)
    (hpre : ∀ t ∈ pre, delayFails t.id = false)
    (hf : delayFails f.id = true) :
    ∃ stE : CycleState,
      schedule_periodic_tasks tasks now delayFails = Except.error stE ∧
      stE.submitted = pre.map (fun t => t.id) ∧
      stE.executions_created = pre.map (fun t => t.id) ++ [f.id] ∧
      (∀ u ∈ stE.tasks, u.id ∉ pre.map (fun t => t.id) → u ∈ tasks) ∧
      (∀ u ∈ tasks, u.id ∉ pre.map (fun t => t.id) → u ∈ stE.tasks) := by
  unfold schedule_periodic_tasks
  rw [hdue]
  obtain ⟨stE, he, hsub, hec, hback, hfwd⟩ :=
    dispatchLoop_fail_after_prefix now delayFails f post hf pre
      { executions_created := [], submitted := [], tasks := tasks } hpre
  exact ⟨stE, he, by simpa using hsub, by simpa using hec, hback, hfwd⟩

theorem dispatch_failure_aborts_batch_amended_witness :
    ∃ stE : CycleState,
      schedule_periodic_tasks [cexTaskA, cexTaskB, cexTaskC] 10 failTaskTwo
        = Except.error stE ∧
      stE.submitted = [cexTaskA].map (fun t => t.id) ∧
      stE.executions_created = [cexTaskA].map (fun t => t.id) ++ [cexTaskB.id] ∧
      (∀ u ∈ stE.tasks, u.id ∉ [cexTaskA].map (fun t => t.id) →
        u ∈ [cexTaskA, cexTaskB, cexTaskC]) ∧
      (∀ u ∈ [cexTaskA, cexTaskB, cexTaskC],
        u.id ∉ [cexTaskA].map (fun t => t.id) → u ∈ stE.tasks) :=
  dispatch_failure_aborts_batch_amended [cexTaskA, cexTaskB, cexTaskC] 10
    failTaskTwo [cexTaskA] cexTaskB [cexTaskC] (by decide)
    (by decide) (by decide)

/-- C6: when the subprocess call exceeds the wall-clock limit
(`subprocess.TimeoutExpired`), the execution row is completed exactly once,
with terminal status `timeout`, an absent exit code, and an error output
naming the task's `timeout_seconds`; the returned dictionary mirrors this
and carries no exit code. -/
theorem timeout_records_timeout (execution_id : String) (ex : ExecRecord)
    (task : TaskRec) (startT finT : Int)
    (hscript : get_script_content task ≠ "") :
    ∃ ex1 stats1,
      execute_python_script execution_id (some (ex, task)) RunOutcome.timedOut
          startT finT =
        (some (ex1, stats1),
          { status := "timeout", output := none,
            error_output := some ("Script execution timed out after "
              ++ toString task.timeout_seconds ++ " seconds"),
            exit_code := none, execution_time_seconds := none }) ∧
      ex1.status = ExecStatus.timeout ∧
      ex1.exit_code = none ∧
      ex1.error_output = "Script execution timed out after "
        ++ toString task.timeout_seconds ++ " seconds" := by
  refine
    ⟨(mark_completed (mark_started ex startT) task.stats ExecStatus.timeout ""
        ("Script execution timed out after " ++ toString task.timeout_seconds
          ++ " seconds") none finT).1,
      (mark_completed (mark_started ex startT) task.stats ExecStatus.timeout ""
        ("Script execution timed out after " ++ toString task.timeout_seconds
          ++ " seconds") none finT).2, ?_, rfl, rfl, rfl⟩
  simp [execute_python_script, execute_python_script_try, hscript]

theorem timeout_records_timeout_witness :
    ∃ ex1 stats1,
      execute_python_script "e1"
          (some (initExecRecord,
            { script_file := none, script_content := "import time",
              timeout_seconds := 1, stats := initStats })) RunOutcome.timedOut
          0 5 =
        (some (ex1, stats1),
          { status := "timeout", output := none,
            error_output := some ("Script execution timed out after "
              ++ toString (1 : Nat) ++ " seconds"),
            exit_code := none, execution_time_seconds := none }) ∧
      ex1.status = ExecStatus.timeout ∧
      ex1.exit_code = none ∧
      ex1.error_output = "Script execution timed out after "
        ++ toString (1 : Nat) ++ " seconds" :=
  timeout_records_timeout "e1" initExecRecord
    { script_file := none, script_content := "import time",
      timeout_seconds := 1, stats := initStats } 0 5 (by decide)

/-- C7: the script runner never lets a fault escape to its caller — the
outer `except` handlers turn every raised exception into a returned
dictionary.  In each failure case (the execution id not existing, no script
content, or the subprocess call raising), the returned dictionary has
status `failure`, an absent exit code, and a non-empty descriptive error
message. -/
theorem runner_reports_failures (execution_id : String)
    (lookup : Option (ExecRecord × TaskRec)) (outcome : RunOutcome)
    (startT finT : Int)
    (hfail : lookup = none ∨
      (∃ ex task, lookup = some (ex, task) ∧ get_script_content task = "") ∨
      (∃ m, outcome = RunOutcome.raised m)) :
    (execute_python_script execution_id lookup outcome startT finT).2.status
        = "failure" ∧
    (execute_python_script execution_id lookup outcome startT finT).2.exit_code
        = none ∧
    ∃ msg,
      (execute_python_script execution_id lookup outcome
        startT finT).2.error_output = some msg ∧ msg ≠ "" := by
  rcases hfail with h | ⟨ex, task, hl, hs⟩ | ⟨m, ho⟩
  · subst h
    refine ⟨rfl, rfl, "TaskExecution with id " ++ execution_id ++ " not found",
      rfl, ?_⟩
    exact string_append_ne_empty _ _
      (string_append_ne_empty "TaskExecution with id " execution_id (by decide))
  · subst hl
    simp only [execute_python_script, execute_python_script_try, hs,
      if_pos rfl]
    refine ⟨rfl, rfl, "Unexpected error: " ++ "No script content found",
      rfl, string_append_ne_empty _ _ (by decide)⟩
  · subst ho
    by_cases hl : lookup = none
    · subst hl
      refine ⟨rfl, rfl,
        "TaskExecution with id " ++ execution_id ++ " not found", rfl, ?_⟩
      exact string_append_ne_empty _ _
        (string_append_ne_empty "TaskExecution with id " execution_id
          (by decide))
    · obtain ⟨⟨ex, task⟩, hl⟩ := Option.ne_none_iff_exists.mp hl
      subst hl
      by_cases hs : get_script_content task = ""
      · simp only [execute_python_script, execute_python_script_try, hs,
          if_pos rfl]
        refine ⟨rfl, rfl, "Unexpected error: " ++ "No script content found",
          rfl, string_append_ne_empty _ _ (by decide)⟩
      · simp only [execute_python_script, execute_python_script_try, hs,
          if_neg hs]
        refine ⟨rfl, rfl, "Execution error: " ++ m, rfl,
          string_append_ne_empty _ _ (by decide)⟩

theorem runner_reports_failures_witness :
    (execute_python_script "dead-beef" none RunOutcome.timedOut 0 0).2.status
        = "failure" ∧
    (execute_python_script "dead-beef" none RunOutcome.timedOut 0 0).2.exit_code
        = none ∧
    ∃ msg,
      (execute_python_script "dead-beef" none RunOutcome.timedOut
        0 0).2.error_output = some msg ∧ msg ≠ "" :=
  runner_reports_failures "dead-beef" none RunOutcome.timedOut 0 0 (Or.inl rfl)

/-- C9: the cron-expression validator accepts exactly the strings with
exactly five whitespace-separated fields in which each field either
contains `,`, `-` or `/` (accepted outright, without bounds checking) or
fully matches its per-field pattern; in particular a plain integer month
field is accepted for every value 0–19 (each one digit, or two digits
starting with 0 or 1) and for no larger plain integer, rather than only
1–12. -/
theorem cron_validator_characterisation :
    (∀ s : String, validate_cron_expression s = true ↔ cronSpecAccepts s) ∧
    (["0", "1", "2", "3", "4", "5", "6", "7", "8", "9", "10", "11", "12",
        "13", "14", "15", "16", "17", "18", "19"].all
      (fun m => validate_cron_expression ("0 0 1 " ++ m ++ " 0")) = true) ∧
    validate_cron_expression "0 0 1 20 0" = false ∧
    validate_cron_expression "* * * 0 *" = true ∧
    validate_cron_expression "* * * 13 *" = true := by
  refine ⟨?_, by decide, by decide, by decide, by decide⟩
  intro s
  unfold validate_cron_expression cronSpecAccepts
  generalize pySplitWs s = l
  rcases l with _ | ⟨a, _ | ⟨b, _ | ⟨c, _ | ⟨d, _ | ⟨e, _ | ⟨f, t⟩⟩⟩⟩⟩⟩ <;>
    simp [cronPartsOk]
  constructor
  · rintro ⟨⟨⟨⟨h1, h2⟩, h3⟩, h4⟩, h5⟩
    exact ⟨a, b, c, d, e, ⟨rfl, rfl, rfl, rfl, rfl⟩, h1, h2, h3, h4, h5⟩
  · rintro ⟨a1, b1, c1, d1, e1, ⟨rfl, rfl, rfl, rfl, rfl⟩, h1, h2, h3, h4, h5⟩
    exact ⟨⟨⟨⟨h1, h2⟩, h3⟩, h4⟩, h5⟩

end TaskSchedule
